import Mathlib

set_option maxHeartbeats 4000000
set_option maxRecDepth 20000

namespace LiveSplit

/-- The closed enumeration of physical key positions (`pub enum KeyCode` in
`livesplit-hotkey/src/key_code.rs`), one constructor per Rust variant, in source order. -/
inductive KeyCode where
  | Backquote
  | Backslash
  | Backspace
  | BracketLeft
  | BracketRight
  | Comma
  | Digit0
  | Digit1
  | Digit2
  | Digit3
  | Digit4
  | Digit5
  | Digit6
  | Digit7
  | Digit8
  | Digit9
  | Equal
  | IntlBackslash
  | IntlRo
  | IntlYen
  | KeyA
  | KeyB
  | KeyC
  | KeyD
  | KeyE
  | KeyF
  | KeyG
  | KeyH
  | KeyI
  | KeyJ
  | KeyK
  | KeyL
  | KeyM
  | KeyN
  | KeyO
  | KeyP
  | KeyQ
  | KeyR
  | KeyS
  | KeyT
  | KeyU
  | KeyV
  | KeyW
  | KeyX
  | KeyY
  | KeyZ
  | Minus
  | Period
  | Quote
  | Semicolon
  | Slash
  | AltLeft
  | AltRight
  | CapsLock
  | ContextMenu
  | ControlLeft
  | ControlRight
  | Enter
  | MetaLeft
  | MetaRight
  | ShiftLeft
  | ShiftRight
  | Space
  | Tab
  | Convert
  | KanaMode
  | Lang1
  | Lang2
  | Lang3
  | Lang4
  | Lang5
  | NonConvert
  | Delete
  | End
  | Help
  | Home
  | Insert
  | PageDown
  | PageUp
  | ArrowDown
  | ArrowLeft
  | ArrowRight
  | ArrowUp
  | NumLock
  | Numpad0
  | Numpad1
  | Numpad2
  | Numpad3
  | Numpad4
  | Numpad5
  | Numpad6
  | Numpad7
  | Numpad8
  | Numpad9
  | NumpadAdd
  | NumpadBackspace
  | NumpadClear
  | NumpadClearEntry
  | NumpadComma
  | NumpadDecimal
  | NumpadDivide
  | NumpadEnter
  | NumpadEqual
  | NumpadHash
  | NumpadMemoryAdd
  | NumpadMemoryClear
  | NumpadMemoryRecall
  | NumpadMemoryStore
  | NumpadMemorySubtract
  | NumpadMultiply
  | NumpadParenLeft
  | NumpadParenRight
  | NumpadStar
  | NumpadSubtract
  | Escape
  | F1
  | F2
  | F3
  | F4
  | F5
  | F6
  | F7
  | F8
  | F9
  | F10
  | F11
  | F12
  | F13
  | F14
  | F15
  | F16
  | F17
  | F18
  | F19
  | F20
  | F21
  | F22
  | F23
  | F24
  | Fn
  | FnLock
  | PrintScreen
  | ScrollLock
  | Pause
  | BrowserBack
  | BrowserFavorites
  | BrowserForward
  | BrowserHome
  | BrowserRefresh
  | BrowserSearch
  | BrowserStop
  | Eject
  | LaunchApp1
  | LaunchApp2
  | LaunchMail
  | MediaPlayPause
  | MediaSelect
  | MediaStop
  | MediaTrackNext
  | MediaTrackPrevious
  | Power
  | Sleep
  | AudioVolumeDown
  | AudioVolumeMute
  | AudioVolumeUp
  | WakeUp
  | Again
  | Copy
  | Cut
  | Find
  | Open
  | Paste
  | Props
  | Select
  | Undo
  | Gamepad0
  | Gamepad1
  | Gamepad2
  | Gamepad3
  | Gamepad4
  | Gamepad5
  | Gamepad6
  | Gamepad7
  | Gamepad8
  | Gamepad9
  | Gamepad10
  | Gamepad11
  | Gamepad12
  | Gamepad13
  | Gamepad14
  | Gamepad15
  | Gamepad16
  | Gamepad17
  | Gamepad18
  | Gamepad19
  | BrightnessDown
  | BrightnessUp
  | DisplayToggleIntExt
  | KeyboardLayoutSelect
  | LaunchAssistant
  | LaunchControlPanel
  | LaunchScreenSaver
  | MailForward
  | MailReply
  | MailSend
  | MediaFastForward
  | MediaPause
  | MediaPlay
  | MediaRecord
  | MediaRewind
  | PrivacyScreenToggle
  | SelectTask
  | ShowAllWindows
  | ZoomToggle
deriving DecidableEq, Fintype, Repr

/-- The closed enumeration of key categories (`pub enum KeyCodeClass`). -/
inductive KeyCodeClass where
  | WritingSystem
  | Functional
  | ControlPad
  | ArrowPad
  | Numpad
  | Function
  | Media
  | Legacy
  | Gamepad
  | NonStandard
deriving DecidableEq, Fintype, Repr

open KeyCode KeyCodeClass

/-- The Baseline Labeler (`KeyCode::as_str`): the static display string of each key
under the reference US layout, one arm per variant, copied from the source match. -/
def KeyCode.as_str : KeyCode → String
  | .Backquote => "`"
  | .Backslash => "\\"
  | .Backspace => "⌫"
  | .BracketLeft => "["
  | .BracketRight => "]"
  | .Comma => ","
  | .Digit0 => "0"
  | .Digit1 => "1"
  | .Digit2 => "2"
  | .Digit3 => "3"
  | .Digit4 => "4"
  | .Digit5 => "5"
  | .Digit6 => "6"
  | .Digit7 => "7"
  | .Digit8 => "8"
  | .Digit9 => "9"
  | .Equal => "="
  | .IntlBackslash => "International Backslash"
  | .IntlRo => "ろ"
  | .IntlYen => "¥"
  | .KeyA => "A"
  | .KeyB => "B"
  | .KeyC => "C"
  | .KeyD => "D"
  | .KeyE => "E"
  | .KeyF => "F"
  | .KeyG => "G"
  | .KeyH => "H"
  | .KeyI => "I"
  | .KeyJ => "J"
  | .KeyK => "K"
  | .KeyL => "L"
  | .KeyM => "M"
  | .KeyN => "N"
  | .KeyO => "O"
  | .KeyP => "P"
  | .KeyQ => "Q"
  | .KeyR => "R"
  | .KeyS => "S"
  | .KeyT => "T"
  | .KeyU => "U"
  | .KeyV => "V"
  | .KeyW => "W"
  | .KeyX => "X"
  | .KeyY => "Y"
  | .KeyZ => "Z"
  | .Minus => "-"
  | .Period => "."
  | .Quote => "'"
  | .Semicolon => ";"
  | .Slash => "/"
  | .AltLeft => "Alt Left"
  | .AltRight => "Alt Right"
  | .CapsLock => "⇪"
  | .ContextMenu => "Context Menu"
  | .ControlLeft => "Control Left"
  | .ControlRight => "Control Right"
  | .Enter => "↵"
  | .MetaLeft => "⌘ Left"
  | .MetaRight => "⌘ Right"
  | .ShiftLeft => "⇧ Left"
  | .ShiftRight => "⇧ Right"
  | .Space => "Space"
  | .Tab => "⇥"
  | .Convert => "変換"
  | .KanaMode => "カタカナ/ひらがな/ローマ字"
  | .Lang1 => "한/영 かな"
  | .Lang2 => "한자 英数"
  | .Lang3 => "カタカナ"
  | .Lang4 => "ひらがな"
  | .Lang5 => "半角/全角/漢字"
  | .NonConvert => "無変換"
  | .Delete => "Delete"
  | .End => "End"
  | .Help => "Help"
  | .Home => "Home"
  | .Insert => "Insert"
  | .PageDown => "Page Down"
  | .PageUp => "Page Up"
  | .ArrowDown => "↓"
  | .ArrowLeft => "←"
  | .ArrowRight => "→"
  | .ArrowUp => "↑"
  | .NumLock => "Num Lock"
  | .Numpad0 => "Numpad 0"
  | .Numpad1 => "Numpad 1"
  | .Numpad2 => "Numpad 2"
  | .Numpad3 => "Numpad 3"
  | .Numpad4 => "Numpad 4"
  | .Numpad5 => "Numpad 5"
  | .Numpad6 => "Numpad 6"
  | .Numpad7 => "Numpad 7"
  | .Numpad8 => "Numpad 8"
  | .Numpad9 => "Numpad 9"
  | .NumpadAdd => "Numpad +"
  | .NumpadBackspace => "Numpad ⌫"
  | .NumpadClear => "Numpad C"
  | .NumpadClearEntry => "Numpad CE"
  | .NumpadComma => "Numpad ,"
  | .NumpadDecimal => "Numpad ."
  | .NumpadDivide => "Numpad /"
  | .NumpadEnter => "Numpad ↵"
  | .NumpadEqual => "Numpad ="
  | .NumpadHash => "Numpad #"
  | .NumpadMemoryAdd => "Numpad M+"
  | .NumpadMemoryClear => "Numpad MC"
  | .NumpadMemoryRecall => "Numpad MR"
  | .NumpadMemoryStore => "Numpad MS"
  | .NumpadMemorySubtract => "Numpad M-"
  | .NumpadMultiply => "Numpad *"
  | .NumpadParenLeft => "Numpad ("
  | .NumpadParenRight => "Numpad )"
  | .NumpadStar => "Numpad * (Star)"
  | .NumpadSubtract => "Numpad -"
  | .Escape => "Escape"
  | .F1 => "F1"
  | .F2 => "F2"
  | .F3 => "F3"
  | .F4 => "F4"
  | .F5 => "F5"
  | .F6 => "F6"
  | .F7 => "F7"
  | .F8 => "F8"
  | .F9 => "F9"
  | .F10 => "F10"
  | .F11 => "F11"
  | .F12 => "F12"
  | .F13 => "F13"
  | .F14 => "F14"
  | .F15 => "F15"
  | .F16 => "F16"
  | .F17 => "F17"
  | .F18 => "F18"
  | .F19 => "F19"
  | .F20 => "F20"
  | .F21 => "F21"
  | .F22 => "F22"
  | .F23 => "F23"
  | .F24 => "F24"
  | .Fn => "Fn"
  | .FnLock => "FnLock"
  | .PrintScreen => "Print Screen"
  | .ScrollLock => "Scroll Lock"
  | .Pause => "Pause Break"
  | .BrowserBack => "Browser ⏮"
  | .BrowserFavorites => "Browser Favorites"
  | .BrowserForward => "Browser ⏭"
  | .BrowserHome => "Browser 🏠"
  | .BrowserRefresh => "Browser Refresh"
  | .BrowserSearch => "Browser Search"
  | .BrowserStop => "Browser Stop"
  | .Eject => "⏏"
  | .LaunchApp1 => "Launch App 1"
  | .LaunchApp2 => "Launch App 2"
  | .LaunchMail => "Launch Mail"
  | .MediaPlayPause => "⏯"
  | .MediaSelect => "Media Select"
  | .MediaStop => "◼"
  | .MediaTrackNext => "⏭"
  | .MediaTrackPrevious => "⏮"
  | .Power => "Power"
  | .Sleep => "Sleep"
  | .AudioVolumeDown => "🔉"
  | .AudioVolumeMute => "🔇"
  | .AudioVolumeUp => "🔊"
  | .WakeUp => "Wake Up"
  | .Again => "Again"
  | .Copy => "Copy"
  | .Cut => "Cut"
  | .Find => "Find"
  | .Open => "Open"
  | .Paste => "Paste"
  | .Props => "Props"
  | .Select => "Select"
  | .Undo => "Undo"
  | .Gamepad0 => "Gamepad 0"
  | .Gamepad1 => "Gamepad 1"
  | .Gamepad2 => "Gamepad 2"
  | .Gamepad3 => "Gamepad 3"
  | .Gamepad4 => "Gamepad 4"
  | .Gamepad5 => "Gamepad 5"
  | .Gamepad6 => "Gamepad 6"
  | .Gamepad7 => "Gamepad 7"
  | .Gamepad8 => "Gamepad 8"
  | .Gamepad9 => "Gamepad 9"
  | .Gamepad10 => "Gamepad 10"
  | .Gamepad11 => "Gamepad 11"
  | .Gamepad12 => "Gamepad 12"
  | .Gamepad13 => "Gamepad 13"
  | .Gamepad14 => "Gamepad 14"
  | .Gamepad15 => "Gamepad 15"
  | .Gamepad16 => "Gamepad 16"
  | .Gamepad17 => "Gamepad 17"
  | .Gamepad18 => "Gamepad 18"
  | .Gamepad19 => "Gamepad 19"
  | .BrightnessDown => "Brightness Down"
  | .BrightnessUp => "Brightness Up"
  | .DisplayToggleIntExt => "Display Toggle Intern / Extern"
  | .KeyboardLayoutSelect => "Keyboard Layout Select"
  | .LaunchAssistant => "Launch Assistant"
  | .LaunchControlPanel => "Launch Control Panel"
  | .LaunchScreenSaver => "Launch Screen Saver"
  | .MailForward => "Mail Forward"
  | .MailReply => "Mail Reply"
  | .MailSend => "Mail Send"
  | .MediaFastForward => "⏩"
  | .MediaPause => "⏸"
  | .MediaPlay => "▶"
  | .MediaRecord => "⏺"
  | .MediaRewind => "⏪"
  | .PrivacyScreenToggle => "Privacy Screen Toggle"
  | .SelectTask => "Select Task"
  | .ShowAllWindows => "Show All Windows"
  | .ZoomToggle => "Zoom Toggle"

/-- The Classifier (`KeyCode::classify`): the partition of the key codes into the
ten classes, with the same pattern groups as the source match. -/
def KeyCode.classify : KeyCode → KeyCodeClass
  | .Backquote | .Backslash | .Backspace | .BracketLeft | .BracketRight | .Comma | .Digit0
    | .Digit1 | .Digit2 | .Digit3 | .Digit4 | .Digit5 | .Digit6 | .Digit7 | .Digit8 | .Digit9
    | .Equal | .IntlBackslash | .IntlRo | .IntlYen | .KeyA | .KeyB | .KeyC | .KeyD | .KeyE | .KeyF
    | .KeyG | .KeyH | .KeyI | .KeyJ | .KeyK | .KeyL | .KeyM | .KeyN | .KeyO | .KeyP | .KeyQ
    | .KeyR | .KeyS | .KeyT | .KeyU | .KeyV | .KeyW | .KeyX | .KeyY | .KeyZ | .Minus | .Period
    | .Quote | .Semicolon | .Slash => .WritingSystem
  | .AltLeft | .AltRight | .CapsLock | .ContextMenu | .ControlLeft | .ControlRight | .Enter
    | .MetaLeft | .MetaRight | .ShiftLeft | .ShiftRight | .Space | .Tab | .Convert | .KanaMode
    | .Lang1 | .Lang2 | .Lang3 | .Lang4 | .Lang5 | .NonConvert => .Functional
  | .Delete | .End | .Help | .Home | .Insert | .PageDown | .PageUp => .ControlPad
  | .ArrowDown | .ArrowLeft | .ArrowRight | .ArrowUp => .ArrowPad
  | .NumLock | .Numpad0 | .Numpad1 | .Numpad2 | .Numpad3 | .Numpad4 | .Numpad5 | .Numpad6
    | .Numpad7 | .Numpad8 | .Numpad9 | .NumpadAdd | .NumpadBackspace | .NumpadClear
    | .NumpadClearEntry | .NumpadComma | .NumpadDecimal | .NumpadDivide | .NumpadEnter
    | .NumpadEqual | .NumpadHash | .NumpadMemoryAdd | .NumpadMemoryClear | .NumpadMemoryRecall
    | .NumpadMemoryStore | .NumpadMemorySubtract | .NumpadMultiply | .NumpadParenLeft
    | .NumpadParenRight | .NumpadStar | .NumpadSubtract => .Numpad
  | .Escape | .F1 | .F2 | .F3 | .F4 | .F5 | .F6 | .F7 | .F8 | .F9 | .F10 | .F11 | .F12 | .F13
    | .F14 | .F15 | .F16 | .F17 | .F18 | .F19 | .F20 | .F21 | .F22 | .F23 | .F24 | .Fn | .FnLock
    | .PrintScreen | .ScrollLock | .Pause => .Function
  | .BrowserBack | .BrowserFavorites | .BrowserForward | .BrowserHome | .BrowserRefresh
    | .BrowserSearch | .BrowserStop | .Eject | .LaunchApp1 | .LaunchApp2 | .LaunchMail
    | .MediaPlayPause | .MediaSelect | .MediaStop | .MediaTrackNext | .MediaTrackPrevious | .Power
    | .Sleep | .AudioVolumeDown | .AudioVolumeMute | .AudioVolumeUp | .WakeUp => .Media
  | .Again | .Copy | .Cut | .Find | .Open | .Paste | .Props | .Select | .Undo => .Legacy
  | .Gamepad0 | .Gamepad1 | .Gamepad2 | .Gamepad3 | .Gamepad4 | .Gamepad5 | .Gamepad6 | .Gamepad7
    | .Gamepad8 | .Gamepad9 | .Gamepad10 | .Gamepad11 | .Gamepad12 | .Gamepad13 | .Gamepad14
    | .Gamepad15 | .Gamepad16 | .Gamepad17 | .Gamepad18 | .Gamepad19 => .Gamepad
  | .BrightnessDown | .BrightnessUp | .DisplayToggleIntExt | .KeyboardLayoutSelect
    | .LaunchAssistant | .LaunchControlPanel | .LaunchScreenSaver | .MailForward | .MailReply
    | .MailSend | .MediaFastForward | .MediaPause | .MediaPlay | .MediaRecord | .MediaRewind
    | .PrivacyScreenToggle | .SelectTask | .ShowAllWindows | .ZoomToggle => .NonStandard

/-- The canonical name of each key code: the Rust enum variant's own name, which is
both the serialized spelling (derived serde serialization of a unit variant) and the
first string literal of the variant's parser arm in `FromStr for KeyCode`. -/
def KeyCode.name : KeyCode → String
  | .Backquote => "Backquote"
  | .Backslash => "Backslash"
  | .Backspace => "Backspace"
  | .BracketLeft => "BracketLeft"
  | .BracketRight => "BracketRight"
  | .Comma => "Comma"
  | .Digit0 => "Digit0"
  | .Digit1 => "Digit1"
  | .Digit2 => "Digit2"
  | .Digit3 => "Digit3"
  | .Digit4 => "Digit4"
  | .Digit5 => "Digit5"
  | .Digit6 => "Digit6"
  | .Digit7 => "Digit7"
  | .Digit8 => "Digit8"
  | .Digit9 => "Digit9"
  | .Equal => "Equal"
  | .IntlBackslash => "IntlBackslash"
  | .IntlRo => "IntlRo"
  | .IntlYen => "IntlYen"
  | .KeyA => "KeyA"
  | .KeyB => "KeyB"
  | .KeyC => "KeyC"
  | .KeyD => "KeyD"
  | .KeyE => "KeyE"
  | .KeyF => "KeyF"
  | .KeyG => "KeyG"
  | .KeyH => "KeyH"
  | .KeyI => "KeyI"
  | .KeyJ => "KeyJ"
  | .KeyK => "KeyK"
  | .KeyL => "KeyL"
  | .KeyM => "KeyM"
  | .KeyN => "KeyN"
  | .KeyO => "KeyO"
  | .KeyP => "KeyP"
  | .KeyQ => "KeyQ"
  | .KeyR => "KeyR"
  | .KeyS => "KeyS"
  | .KeyT => "KeyT"
  | .KeyU => "KeyU"
  | .KeyV => "KeyV"
  | .KeyW => "KeyW"
  | .KeyX => "KeyX"
  | .KeyY => "KeyY"
  | .KeyZ => "KeyZ"
  | .Minus => "Minus"
  | .Period => "Period"
  | .Quote => "Quote"
  | .Semicolon => "Semicolon"
  | .Slash => "Slash"
  | .AltLeft => "AltLeft"
  | .AltRight => "AltRight"
  | .CapsLock => "CapsLock"
  | .ContextMenu => "ContextMenu"
  | .ControlLeft => "ControlLeft"
  | .ControlRight => "ControlRight"
  | .Enter => "Enter"
  | .MetaLeft => "MetaLeft"
  | .MetaRight => "MetaRight"
  | .ShiftLeft => "ShiftLeft"
  | .ShiftRight => "ShiftRight"
  | .Space => "Space"
  | .Tab => "Tab"
  | .Convert => "Convert"
  | .KanaMode => "KanaMode"
  | .Lang1 => "Lang1"
  | .Lang2 => "Lang2"
  | .Lang3 => "Lang3"
  | .Lang4 => "Lang4"
  | .Lang5 => "Lang5"
  | .NonConvert => "NonConvert"
  | .Delete => "Delete"
  | .End => "End"
  | .Help => "Help"
  | .Home => "Home"
  | .Insert => "Insert"
  | .PageDown => "PageDown"
  | .PageUp => "PageUp"
  | .ArrowDown => "ArrowDown"
  | .ArrowLeft => "ArrowLeft"
  | .ArrowRight => "ArrowRight"
  | .ArrowUp => "ArrowUp"
  | .NumLock => "NumLock"
  | .Numpad0 => "Numpad0"
  | .Numpad1 => "Numpad1"
  | .Numpad2 => "Numpad2"
  | .Numpad3 => "Numpad3"
  | .Numpad4 => "Numpad4"
  | .Numpad5 => "Numpad5"
  | .Numpad6 => "Numpad6"
  | .Numpad7 => "Numpad7"
  | .Numpad8 => "Numpad8"
  | .Numpad9 => "Numpad9"
  | .NumpadAdd => "NumpadAdd"
  | .NumpadBackspace => "NumpadBackspace"
  | .NumpadClear => "NumpadClear"
  | .NumpadClearEntry => "NumpadClearEntry"
  | .NumpadComma => "NumpadComma"
  | .NumpadDecimal => "NumpadDecimal"
  | .NumpadDivide => "NumpadDivide"
  | .NumpadEnter => "NumpadEnter"
  | .NumpadEqual => "NumpadEqual"
  | .NumpadHash => "NumpadHash"
  | .NumpadMemoryAdd => "NumpadMemoryAdd"
  | .NumpadMemoryClear => "NumpadMemoryClear"
  | .NumpadMemoryRecall => "NumpadMemoryRecall"
  | .NumpadMemoryStore => "NumpadMemoryStore"
  | .NumpadMemorySubtract => "NumpadMemorySubtract"
  | .NumpadMultiply => "NumpadMultiply"
  | .NumpadParenLeft => "NumpadParenLeft"
  | .NumpadParenRight => "NumpadParenRight"
  | .NumpadStar => "NumpadStar"
  | .NumpadSubtract => "NumpadSubtract"
  | .Escape => "Escape"
  | .F1 => "F1"
  | .F2 => "F2"
  | .F3 => "F3"
  | .F4 => "F4"
  | .F5 => "F5"
  | .F6 => "F6"
  | .F7 => "F7"
  | .F8 => "F8"
  | .F9 => "F9"
  | .F10 => "F10"
  | .F11 => "F11"
  | .F12 => "F12"
  | .F13 => "F13"
  | .F14 => "F14"
  | .F15 => "F15"
  | .F16 => "F16"
  | .F17 => "F17"
  | .F18 => "F18"
  | .F19 => "F19"
  | .F20 => "F20"
  | .F21 => "F21"
  | .F22 => "F22"
  | .F23 => "F23"
  | .F24 => "F24"
  | .Fn => "Fn"
  | .FnLock => "FnLock"
  | .PrintScreen => "PrintScreen"
  | .ScrollLock => "ScrollLock"
  | .Pause => "Pause"
  | .BrowserBack => "BrowserBack"
  | .BrowserFavorites => "BrowserFavorites"
  | .BrowserForward => "BrowserForward"
  | .BrowserHome => "BrowserHome"
  | .BrowserRefresh => "BrowserRefresh"
  | .BrowserSearch => "BrowserSearch"
  | .BrowserStop => "BrowserStop"
  | .Eject => "Eject"
  | .LaunchApp1 => "LaunchApp1"
  | .LaunchApp2 => "LaunchApp2"
  | .LaunchMail => "LaunchMail"
  | .MediaPlayPause => "MediaPlayPause"
  | .MediaSelect => "MediaSelect"
  | .MediaStop => "MediaStop"
  | .MediaTrackNext => "MediaTrackNext"
  | .MediaTrackPrevious => "MediaTrackPrevious"
  | .Power => "Power"
  | .Sleep => "Sleep"
  | .AudioVolumeDown => "AudioVolumeDown"
  | .AudioVolumeMute => "AudioVolumeMute"
  | .AudioVolumeUp => "AudioVolumeUp"
  | .WakeUp => "WakeUp"
  | .Again => "Again"
  | .Copy => "Copy"
  | .Cut => "Cut"
  | .Find => "Find"
  | .Open => "Open"
  | .Paste => "Paste"
  | .Props => "Props"
  | .Select => "Select"
  | .Undo => "Undo"
  | .Gamepad0 => "Gamepad0"
  | .Gamepad1 => "Gamepad1"
  | .Gamepad2 => "Gamepad2"
  | .Gamepad3 => "Gamepad3"
  | .Gamepad4 => "Gamepad4"
  | .Gamepad5 => "Gamepad5"
  | .Gamepad6 => "Gamepad6"
  | .Gamepad7 => "Gamepad7"
  | .Gamepad8 => "Gamepad8"
  | .Gamepad9 => "Gamepad9"
  | .Gamepad10 => "Gamepad10"
  | .Gamepad11 => "Gamepad11"
  | .Gamepad12 => "Gamepad12"
  | .Gamepad13 => "Gamepad13"
  | .Gamepad14 => "Gamepad14"
  | .Gamepad15 => "Gamepad15"
  | .Gamepad16 => "Gamepad16"
  | .Gamepad17 => "Gamepad17"
  | .Gamepad18 => "Gamepad18"
  | .Gamepad19 => "Gamepad19"
  | .BrightnessDown => "BrightnessDown"
  | .BrightnessUp => "BrightnessUp"
  | .DisplayToggleIntExt => "DisplayToggleIntExt"
  | .KeyboardLayoutSelect => "KeyboardLayoutSelect"
  | .LaunchAssistant => "LaunchAssistant"
  | .LaunchControlPanel => "LaunchControlPanel"
  | .LaunchScreenSaver => "LaunchScreenSaver"
  | .MailForward => "MailForward"
  | .MailReply => "MailReply"
  | .MailSend => "MailSend"
  | .MediaFastForward => "MediaFastForward"
  | .MediaPause => "MediaPause"
  | .MediaPlay => "MediaPlay"
  | .MediaRecord => "MediaRecord"
  | .MediaRewind => "MediaRewind"
  | .PrivacyScreenToggle => "PrivacyScreenToggle"
  | .SelectTask => "SelectTask"
  | .ShowAllWindows => "ShowAllWindows"
  | .ZoomToggle => "ZoomToggle"

/-- The alias spellings of each key code: the string literals of its arm in
`FromStr for KeyCode` other than the canonical name (single characters for letter and
digit keys, OSLeft/OSRight, VolumeUp/VolumeDown/VolumeMute, LaunchMediaPlayer). -/
def KeyCode.aliases : KeyCode → List String
  | .Digit0 => ["0"]
  | .Digit1 => ["1"]
  | .Digit2 => ["2"]
  | .Digit3 => ["3"]
  | .Digit4 => ["4"]
  | .Digit5 => ["5"]
  | .Digit6 => ["6"]
  | .Digit7 => ["7"]
  | .Digit8 => ["8"]
  | .Digit9 => ["9"]
  | .KeyA => ["A"]
  | .KeyB => ["B"]
  | .KeyC => ["C"]
  | .KeyD => ["D"]
  | .KeyE => ["E"]
  | .KeyF => ["F"]
  | .KeyG => ["G"]
  | .KeyH => ["H"]
  | .KeyI => ["I"]
  | .KeyJ => ["J"]
  | .KeyK => ["K"]
  | .KeyL => ["L"]
  | .KeyM => ["M"]
  | .KeyN => ["N"]
  | .KeyO => ["O"]
  | .KeyP => ["P"]
  | .KeyQ => ["Q"]
  | .KeyR => ["R"]
  | .KeyS => ["S"]
  | .KeyT => ["T"]
  | .KeyU => ["U"]
  | .KeyV => ["V"]
  | .KeyW => ["W"]
  | .KeyX => ["X"]
  | .KeyY => ["Y"]
  | .KeyZ => ["Z"]
  | .MetaLeft => ["OSLeft"]
  | .MetaRight => ["OSRight"]
  | .MediaSelect => ["LaunchMediaPlayer"]
  | .AudioVolumeDown => ["VolumeDown"]
  | .AudioVolumeMute => ["VolumeMute"]
  | .AudioVolumeUp => ["VolumeUp"]
  | _ => []

/-- Entries 0 to 39 of the parser table, in source order. -/
def tablePart0 : List (String × KeyCode) := [
  ("Backquote", .Backquote),
  ("Backslash", .Backslash),
  ("Backspace", .Backspace),
  ("BracketLeft", .BracketLeft),
  ("BracketRight", .BracketRight),
  ("Comma", .Comma),
  ("Digit0", .Digit0),
  ("0", .Digit0),
  ("Digit1", .Digit1),
  ("1", .Digit1),
  ("Digit2", .Digit2),
  ("2", .Digit2),
  ("Digit3", .Digit3),
  ("3", .Digit3),
  ("Digit4", .Digit4),
  ("4", .Digit4),
  ("Digit5", .Digit5),
  ("5", .Digit5),
  ("Digit6", .Digit6),
  ("6", .Digit6),
  ("Digit7", .Digit7),
  ("7", .Digit7),
  ("Digit8", .Digit8),
  ("8", .Digit8),
  ("Digit9", .Digit9),
  ("9", .Digit9),
  ("Equal", .Equal),
  ("IntlBackslash", .IntlBackslash),
  ("IntlRo", .IntlRo),
  ("IntlYen", .IntlYen),
  ("KeyA", .KeyA),
  ("A", .KeyA),
  ("KeyB", .KeyB),
  ("B", .KeyB),
  ("KeyC", .KeyC),
  ("C", .KeyC),
  ("KeyD", .KeyD),
  ("D", .KeyD),
  ("KeyE", .KeyE),
  ("E", .KeyE)
]

/-- Entries 40 to 79 of the parser table, in source order. -/
def tablePart1 : List (String × KeyCode) := [
  ("KeyF", .KeyF),
  ("F", .KeyF),
  ("KeyG", .KeyG),
  ("G", .KeyG),
  ("KeyH", .KeyH),
  ("H", .KeyH),
  ("KeyI", .KeyI),
  ("I", .KeyI),
  ("KeyJ", .KeyJ),
  ("J", .KeyJ),
  ("KeyK", .KeyK),
  ("K", .KeyK),
  ("KeyL", .KeyL),
  ("L", .KeyL),
  ("KeyM", .KeyM),
  ("M", .KeyM),
  ("KeyN", .KeyN),
  ("N", .KeyN),
  ("KeyO", .KeyO),
  ("O", .KeyO),
  ("KeyP", .KeyP),
  ("P", .KeyP),
  ("KeyQ", .KeyQ),
  ("Q", .KeyQ),
  ("KeyR", .KeyR),
  ("R", .KeyR),
  ("KeyS", .KeyS),
  ("S", .KeyS),
  ("KeyT", .KeyT),
  ("T", .KeyT),
  ("KeyU", .KeyU),
  ("U", .KeyU),
  ("KeyV", .KeyV),
  ("V", .KeyV),
  ("KeyW", .KeyW),
  ("W", .KeyW),
  ("KeyX", .KeyX),
  ("X", .KeyX),
  ("KeyY", .KeyY),
  ("Y", .KeyY)
]

/-- Entries 80 to 119 of the parser table, in source order. -/
def tablePart2 : List (String × KeyCode) := [
  ("KeyZ", .KeyZ),
  ("Z", .KeyZ),
  ("Minus", .Minus),
  ("Period", .Period),
  ("Quote", .Quote),
  ("Semicolon", .Semicolon),
  ("Slash", .Slash),
  ("AltLeft", .AltLeft),
  ("AltRight", .AltRight),
  ("CapsLock", .CapsLock),
  ("ContextMenu", .ContextMenu),
  ("ControlLeft", .ControlLeft),
  ("ControlRight", .ControlRight),
  ("Enter", .Enter),
  ("MetaLeft", .MetaLeft),
  ("OSLeft", .MetaLeft),
  ("MetaRight", .MetaRight),
  ("OSRight", .MetaRight),
  ("ShiftLeft", .ShiftLeft),
  ("ShiftRight", .ShiftRight),
  ("Space", .Space),
  ("Tab", .Tab),
  ("Convert", .Convert),
  ("KanaMode", .KanaMode),
  ("Lang1", .Lang1),
  ("Lang2", .Lang2),
  ("Lang3", .Lang3),
  ("Lang4", .Lang4),
  ("Lang5", .Lang5),
  ("NonConvert", .NonConvert),
  ("Delete", .Delete),
  ("End", .End),
  ("Help", .Help),
  ("Home", .Home),
  ("Insert", .Insert),
  ("PageDown", .PageDown),
  ("PageUp", .PageUp),
  ("ArrowDown", .ArrowDown),
  ("ArrowLeft", .ArrowLeft),
  ("ArrowRight", .ArrowRight)
]

/-- Entries 120 to 159 of the parser table, in source order. -/
def tablePart3 : List (String × KeyCode) := [
  ("ArrowUp", .ArrowUp),
  ("NumLock", .NumLock),
  ("Numpad0", .Numpad0),
  ("Numpad1", .Numpad1),
  ("Numpad2", .Numpad2),
  ("Numpad3", .Numpad3),
  ("Numpad4", .Numpad4),
  ("Numpad5", .Numpad5),
  ("Numpad6", .Numpad6),
  ("Numpad7", .Numpad7),
  ("Numpad8", .Numpad8),
  ("Numpad9", .Numpad9),
  ("NumpadAdd", .NumpadAdd),
  ("NumpadBackspace", .NumpadBackspace),
  ("NumpadClear", .NumpadClear),
  ("NumpadClearEntry", .NumpadClearEntry),
  ("NumpadComma", .NumpadComma),
  ("NumpadDecimal", .NumpadDecimal),
  ("NumpadDivide", .NumpadDivide),
  ("NumpadEnter", .NumpadEnter),
  ("NumpadEqual", .NumpadEqual),
  ("NumpadHash", .NumpadHash),
  ("NumpadMemoryAdd", .NumpadMemoryAdd),
  ("NumpadMemoryClear", .NumpadMemoryClear),
  ("NumpadMemoryRecall", .NumpadMemoryRecall),
  ("NumpadMemoryStore", .NumpadMemoryStore),
  ("NumpadMemorySubtract", .NumpadMemorySubtract),
  ("NumpadMultiply", .NumpadMultiply),
  ("NumpadParenLeft", .NumpadParenLeft),
  ("NumpadParenRight", .NumpadParenRight),
  ("NumpadStar", .NumpadStar),
  ("NumpadSubtract", .NumpadSubtract),
  ("Escape", .Escape),
  ("F1", .F1),
  ("F2", .F2),
  ("F3", .F3),
  ("F4", .F4),
  ("F5", .F5),
  ("F6", .F6),
  ("F7", .F7)
]

/-- Entries 160 to 199 of the parser table, in source order. -/
def tablePart4 : List (String × KeyCode) := [
  ("F8", .F8),
  ("F9", .F9),
  ("F10", .F10),
  ("F11", .F11),
  ("F12", .F12),
  ("F13", .F13),
  ("F14", .F14),
  ("F15", .F15),
  ("F16", .F16),
  ("F17", .F17),
  ("F18", .F18),
  ("F19", .F19),
  ("F20", .F20),
  ("F21", .F21),
  ("F22", .F22),
  ("F23", .F23),
  ("F24", .F24),
  ("Fn", .Fn),
  ("FnLock", .FnLock),
  ("PrintScreen", .PrintScreen),
  ("ScrollLock", .ScrollLock),
  ("Pause", .Pause),
  ("BrowserBack", .BrowserBack),
  ("BrowserFavorites", .BrowserFavorites),
  ("BrowserForward", .BrowserForward),
  ("BrowserHome", .BrowserHome),
  ("BrowserRefresh", .BrowserRefresh),
  ("BrowserSearch", .BrowserSearch),
  ("BrowserStop", .BrowserStop),
  ("Eject", .Eject),
  ("LaunchApp1", .LaunchApp1),
  ("LaunchApp2", .LaunchApp2),
  ("LaunchMail", .LaunchMail),
  ("MediaPlayPause", .MediaPlayPause),
  ("MediaSelect", .MediaSelect),
  ("LaunchMediaPlayer", .MediaSelect),
  ("MediaStop", .MediaStop),
  ("MediaTrackNext", .MediaTrackNext),
  ("MediaTrackPrevious", .MediaTrackPrevious),
  ("Power", .Power)
]

/-- Entries 200 to 239 of the parser table, in source order. -/
def tablePart5 : List (String × KeyCode) := [
  ("Sleep", .Sleep),
  ("AudioVolumeDown", .AudioVolumeDown),
  ("VolumeDown", .AudioVolumeDown),
  ("AudioVolumeMute", .AudioVolumeMute),
  ("VolumeMute", .AudioVolumeMute),
  ("AudioVolumeUp", .AudioVolumeUp),
  ("VolumeUp", .AudioVolumeUp),
  ("WakeUp", .WakeUp),
  ("Again", .Again),
  ("Copy", .Copy),
  ("Cut", .Cut),
  ("Find", .Find),
  ("Open", .Open),
  ("Paste", .Paste),
  ("Props", .Props),
  ("Select", .Select),
  ("Undo", .Undo),
  ("Gamepad0", .Gamepad0),
  ("Gamepad1", .Gamepad1),
  ("Gamepad2", .Gamepad2),
  ("Gamepad3", .Gamepad3),
  ("Gamepad4", .Gamepad4),
  ("Gamepad5", .Gamepad5),
  ("Gamepad6", .Gamepad6),
  ("Gamepad7", .Gamepad7),
  ("Gamepad8", .Gamepad8),
  ("Gamepad9", .Gamepad9),
  ("Gamepad10", .Gamepad10),
  ("Gamepad11", .Gamepad11),
  ("Gamepad12", .Gamepad12),
  ("Gamepad13", .Gamepad13),
  ("Gamepad14", .Gamepad14),
  ("Gamepad15", .Gamepad15),
  ("Gamepad16", .Gamepad16),
  ("Gamepad17", .Gamepad17),
  ("Gamepad18", .Gamepad18),
  ("Gamepad19", .Gamepad19),
  ("BrightnessDown", .BrightnessDown),
  ("BrightnessUp", .BrightnessUp),
  ("DisplayToggleIntExt", .DisplayToggleIntExt)
]

/-- Entries 240 to 255 of the parser table, in source order. -/
def tablePart6 : List (String × KeyCode) := [
  ("KeyboardLayoutSelect", .KeyboardLayoutSelect),
  ("LaunchAssistant", .LaunchAssistant),
  ("LaunchControlPanel", .LaunchControlPanel),
  ("LaunchScreenSaver", .LaunchScreenSaver),
  ("MailForward", .MailForward),
  ("MailReply", .MailReply),
  ("MailSend", .MailSend),
  ("MediaFastForward", .MediaFastForward),
  ("MediaPause", .MediaPause),
  ("MediaPlay", .MediaPlay),
  ("MediaRecord", .MediaRecord),
  ("MediaRewind", .MediaRewind),
  ("PrivacyScreenToggle", .PrivacyScreenToggle),
  ("SelectTask", .SelectTask),
  ("ShowAllWindows", .ShowAllWindows),
  ("ZoomToggle", .ZoomToggle)
]

/-- The parser table of `FromStr for KeyCode`: every accepted string literal paired
with the key code its match arm returns, in source order (an arm with two literals
contributes its two entries in that order; the list is split into parts only to keep
elaboration fast). -/
def table : List (String × KeyCode) :=
  tablePart0 ++ tablePart1 ++ tablePart2 ++ tablePart3 ++ tablePart4 ++ tablePart5 ++ tablePart6


/-- The Name Parser (`FromStr for KeyCode`): the first entry of `table` whose string
equals the input decides the result; no entry means the parse fails (`Err(())` in the
source, `none` here). No trimming or case folding happens before the comparison. -/
def from_str (s : String) : Option KeyCode :=
  (table.find? (fun p => p.1 == s)).map (fun p => p.2)

/-- Models Rust `char::to_uppercase` for the character set relevant here: the German
sharp-s has the special multi-character uppercase form "SS"; ASCII lowercase letters
map to their single uppercase letters; every other character maps to itself. -/
def charToUppercase (c : Char) : String :=
  if c = 'ß' then "SS" else String.singleton c.toUpper

/-- Models Rust `str::to_uppercase`: the concatenation of the uppercase mapping of
each character of the string. -/
def toUppercase (s : String) : String :=
  String.join (s.toList.map charToUppercase)

/-- The Layout-Aware Resolver (`KeyCode::resolve`). The external layout query
(`crate::platform::try_resolve`, an out-of-scope per-OS collaborator) is passed in as
the function argument `q`, so the theorems can quantify over every behaviour it may
have. For a writing-system key whose query yields a glyph, the glyph is uppercased
unless it is exactly "ß"; otherwise the baseline label `as_str` is returned. -/
def KeyCode.resolve (q : KeyCode → Option String) (k : KeyCode) : String :=
  if k.classify = KeyCodeClass.WritingSystem then
    match q k with
    | some resolved => if resolved ≠ "ß" then toUppercase resolved else resolved
    | none => k.as_str
  else
    k.as_str


/-! ### Helper lemmas shared by the claim theorems -/

/-- Every entry of the parser table pairs a string with a key code whose canonical
name or alias list contains that string. -/
theorem table_entries_canonical : ∀ p ∈ table, p.1 = p.2.name ∨ p.1 ∈ p.2.aliases := by
  decide

/-- Parsing the canonical name of any key code yields that key code. -/
theorem from_str_name_all : ∀ k : KeyCode, from_str k.name = some k := by
  decide

/-- Parsing any alias of any key code yields that key code. -/
theorem from_str_alias_all : ∀ k : KeyCode, ∀ a ∈ k.aliases, from_str a = some k := by
  decide

/-- The strings of the parser table are pairwise distinct. -/
theorem table_keys_nodup : (table.map Prod.fst).Nodup := by
  decide

/-- A successful parse exhibits an entry of the parser table. -/
theorem mem_table_of_from_str {s : String} {k : KeyCode}
    (h : from_str s = some k) : (s, k) ∈ table := by
  unfold from_str at h
  obtain ⟨p, hp, hpk⟩ := Option.map_eq_some'.mp h
  obtain ⟨a, b⟩ := p
  have ha : a = s := by simpa using List.find?_some hp
  have hb : b = k := hpk
  subst ha hb
  exact List.mem_of_find?_eq_some hp

/-- The parser succeeds exactly on the canonical names and the aliases. -/
theorem from_str_isSome_iff (s : String) :
    (from_str s).isSome ↔ ∃ k : KeyCode, s = k.name ∨ s ∈ k.aliases := by
  constructor
  · intro h
    obtain ⟨k, hk⟩ := Option.isSome_iff_exists.mp h
    exact ⟨k, table_entries_canonical (s, k) (mem_table_of_from_str hk)⟩
  · rintro ⟨k, h | h⟩
    · rw [h, from_str_name_all k]; rfl
    · rw [from_str_alias_all k s h]; rfl

/-! ### The claim theorems -/

/-- C1: The Name Parser accepts exactly the canonical names of the key codes plus the
enumerated aliases; every other input string, including case variants, padded forms and
"NotARealKey", fails (`none`, the embedding of `Err(())`) rather than producing a
default identity; and the listed alias examples resolve as stated. -/
theorem parser_accepts_exactly_names_and_aliases :
    (∀ s : String, (from_str s).isSome ↔ ∃ k : KeyCode, s = k.name ∨ s ∈ k.aliases)
    ∧ from_str "0" = some .Digit0
    ∧ from_str "OSLeft" = some .MetaLeft
    ∧ from_str "VolumeUp" = some .AudioVolumeUp
    ∧ from_str "LaunchMediaPlayer" = some .MediaSelect
    ∧ from_str "NotARealKey" = none
    ∧ from_str "keya" = none
    ∧ from_str " KeyA" = none
    ∧ from_str "KeyA " = none := by
  refine ⟨from_str_isSome_iff, ?_, ?_, ?_, ?_, ?_, ?_, ?_, ?_⟩ <;> decide

/-- C2: For a WritingSystem key whose layout query yields a glyph, the resolver
returns the glyph uppercased, except that the exact glyph "ß" is returned unchanged. -/
theorem resolve_uppercases_layout_glyph_except_sharp_s
    (q : KeyCode → Option String) (k : KeyCode) (g : String)
    (hws : k.classify = KeyCodeClass.WritingSystem) (hq : q k = some g) :
    k.resolve q = if g = "ß" then g else toUppercase g := by
  unfold KeyCode.resolve
  rw [hws, if_pos rfl, hq]
  by_cases h : g = "ß"
  · simp [h]
  · simp [h]

/-- Witness for C2 at a concrete layout query: a query yielding "a" resolves KeyA to
"A", and a query yielding "ß" resolves KeyA to "ß" itself. -/
theorem resolve_uppercases_layout_glyph_except_sharp_s_witness :
    KeyCode.resolve (fun _ => some "a") .KeyA = "A"
    ∧ KeyCode.resolve (fun _ => some "ß") .KeyA = "ß" :=
  ⟨(resolve_uppercases_layout_glyph_except_sharp_s (fun _ => some "a") .KeyA "a"
      (by decide) rfl).trans (by decide),
   (resolve_uppercases_layout_glyph_except_sharp_s (fun _ => some "ß") .KeyA "ß"
      (by decide) rfl).trans (by decide)⟩

/-- C3: For a WritingSystem key whose layout query yields nothing, the resolver
returns the baseline label. The resolver is a total Lean function, so it has no
failure mode in any case. -/
theorem resolve_falls_back_to_baseline
    (q : KeyCode → Option String) (k : KeyCode)
    (hws : k.classify = KeyCodeClass.WritingSystem) (hq : q k = none) :
    k.resolve q = k.as_str := by
  unfold KeyCode.resolve
  rw [hws, if_pos rfl, hq]

/-- Witness for C3: with a layout query that always yields nothing, KeyA resolves to
its baseline label. -/
theorem resolve_falls_back_to_baseline_witness :
    KeyCode.resolve (fun _ => none) .KeyA = KeyCode.as_str .KeyA :=
  resolve_falls_back_to_baseline (fun _ => none) .KeyA (by decide) rfl

/-- C4: For a key outside the WritingSystem class the resolver returns the baseline
label whatever the layout query does, so two runs with different query behaviours
agree. -/
theorem resolve_layout_independent_outside_writing_system
    (q q2 : KeyCode → Option String) (k : KeyCode)
    (h : k.classify ≠ KeyCodeClass.WritingSystem) :
    k.resolve q = k.as_str ∧ k.resolve q = k.resolve q2 := by
  unfold KeyCode.resolve
  rw [if_neg h, if_neg h]
  exact ⟨rfl, rfl⟩

/-- Witness for C4: F5 resolves to its baseline label both under a query that yields
"x" for every key and under a query that yields nothing, and the two runs agree. -/
theorem resolve_layout_independent_outside_writing_system_witness :
    KeyCode.resolve (fun _ => some "x") .F5 = KeyCode.as_str .F5
    ∧ KeyCode.resolve (fun _ => some "x") .F5 = KeyCode.resolve (fun _ => none) .F5 :=
  resolve_layout_independent_outside_writing_system (fun _ => some "x") (fun _ => none)
    .F5 (by decide)

/-- C5: Parsing the canonical name (the variant's own name, the serialized spelling)
of any key code returns that key code. -/
theorem parse_name_roundtrip : ∀ k : KeyCode, from_str k.name = some k :=
  from_str_name_all

/-- C6: The parser table has no collisions: its accepted strings are pairwise
distinct, so no string maps to two different key codes. -/
theorem parser_table_no_collisions :
    (table.map Prod.fst).Nodup
    ∧ ∀ (s : String) (k₁ k₂ : KeyCode), (s, k₁) ∈ table → (s, k₂) ∈ table → k₁ = k₂ := by
  refine ⟨table_keys_nodup, fun s k₁ k₂ h₁ h₂ => ?_⟩
  have := List.inj_on_of_nodup_map table_keys_nodup h₁ h₂ rfl
  exact congrArg Prod.snd this

/-- Witness for C6 at a concrete table entry. -/
theorem parser_table_no_collisions_witness :
    ("0", KeyCode.Digit0) ∈ table ∧ KeyCode.Digit0 = KeyCode.Digit0 :=
  ⟨by decide, parser_table_no_collisions.2 "0" KeyCode.Digit0 KeyCode.Digit0
    (by decide) (by decide)⟩

/-- C7: The Classifier is total (a total Lean function assigning every key code
exactly one of the ten classes), every class has at least one member, and the four
example classifications hold. -/
theorem classify_total_partition :
    (∀ c : KeyCodeClass, ∃ k : KeyCode, k.classify = c)
    ∧ KeyCode.classify .KeyA = KeyCodeClass.WritingSystem
    ∧ KeyCode.classify .F5 = KeyCodeClass.Function
    ∧ KeyCode.classify .Gamepad10 = KeyCodeClass.Gamepad
    ∧ KeyCode.classify .ArrowUp = KeyCodeClass.ArrowPad := by
  refine ⟨fun c => ?_, rfl, rfl, rfl, rfl⟩
  cases c with
  | WritingSystem => exact ⟨.KeyA, rfl⟩
  | Functional => exact ⟨.AltLeft, rfl⟩
  | ControlPad => exact ⟨.Delete, rfl⟩
  | ArrowPad => exact ⟨.ArrowUp, rfl⟩
  | Numpad => exact ⟨.NumLock, rfl⟩
  | Function => exact ⟨.F1, rfl⟩
  | Media => exact ⟨.BrowserBack, rfl⟩
  | Legacy => exact ⟨.Copy, rfl⟩
  | Gamepad => exact ⟨.Gamepad0, rfl⟩
  | NonStandard => exact ⟨.BrightnessDown, rfl⟩

/-- C8: The Baseline Labeler is a total Lean function, and its label is non-empty for
every key code. -/
theorem as_str_nonempty : ∀ k : KeyCode, k.as_str ≠ "" := by
  decide

/-- C9: The sharp-s exception fires only on the exact one-character result "ß": every
other query result for a WritingSystem key, including multi-character strings that
merely contain the character, is uppercased as a whole, turning each contained "ß"
into "SS". -/
theorem sharp_s_exception_exact_match_only :
    (∀ (q : KeyCode → Option String) (k : KeyCode) (g : String),
       k.classify = KeyCodeClass.WritingSystem → q k = some g → g ≠ "ß" →
       k.resolve q = toUppercase g)
    ∧ KeyCode.resolve (fun _ => some "aß") .KeyA = "ASS"
    ∧ KeyCode.resolve (fun _ => some "ßß") .KeyA = "SSSS"
    ∧ KeyCode.resolve (fun _ => some "ß") .KeyA = "ß" := by
  refine ⟨fun q k g hws hq hne => ?_, by decide, by decide, by decide⟩
  unfold KeyCode.resolve
  rw [hws, if_pos rfl, hq]
  simp [hne]

/-- Witness for C9 at a concrete layout query: a query yielding "aß" resolves KeyA to
the uppercased whole string. -/
theorem sharp_s_exception_exact_match_only_witness :
    KeyCode.resolve (fun _ => some "aß") .KeyA = toUppercase "aß" :=
  sharp_s_exception_exact_match_only.1 (fun _ => some "aß") .KeyA "aß"
    (by decide) rfl (by decide)

/-- C10: The resolver does not validate the query result: a WritingSystem key whose
query yields the empty string resolves to the empty string, so the baseline
non-empty-label guarantee does not extend to resolved glyphs. -/
theorem resolve_accepts_empty_glyph
    (q : KeyCode → Option String) (k : KeyCode)
    (hws : k.classify = KeyCodeClass.WritingSystem) (hq : q k = some "") :
    k.resolve q = "" := by
  unfold KeyCode.resolve
  rw [hws, if_pos rfl, hq]
  show (if ("" : String) ≠ "ß" then toUppercase "" else "") = ""
  decide

/-- Witness for C10: a query yielding the empty string makes KeyA resolve to the
empty string. -/
theorem resolve_accepts_empty_glyph_witness :
    KeyCode.resolve (fun _ => some "") .KeyA = "" :=
  resolve_accepts_empty_glyph (fun _ => some "") .KeyA (by decide) rfl

end LiveSplit
